import Mathlib

/-!
Verification of `src/light_curves/code_src/heasarc_functions.py` against its
natural-language specification.

The file shallowly embeds the two operations of the module:

* `make_hist_error_radii` (the error-radius inspector), and
* `HEASARC_get_lightcurves` (the cross-match fetcher),

as pure Lean functions.  The remote HEASARC TAP service is modelled as an
oracle function supplied as a parameter; a call to `run_sync` either returns a
result table (`Except.ok`) or raises a remote failure (`Except.error`).
Python floats are modelled as rationals (`Rat`), so literals such as `0.1`
are exact; Python exceptions are modelled as explicit outcome values carried
in an execution trace, which also records every network call issued and every
batch appended to the accumulator.
-/

/-- Row of the caller-supplied `source_table`: an `object_id`, a `label` and a
`coord` SkyCoord mixin column from which `.ra.deg` / `.dec.deg` are read
(modelled by the two rational fields `coord_ra`, `coord_dec`). -/
structure SourceRow where
  object_id : Nat
  label : String
  coord_ra : Rat
  coord_dec : Rat
  deriving Repr, DecidableEq

/-- Row of the `upload_table` built at lines 83-85: the projection of
`source_table` to `object_id, label` plus the float `ra`/`dec` columns taken
from the `coord` column. -/
structure TargetRow where
  object_id : Nat
  label : String
  ra : Rat
  dec : Rat
  deriving Repr, DecidableEq

/-- Row of the result table `hresulttable` of one catalog query (the SELECT
list at line 98: `cat.name, cat.ra, cat.dec, cat.error_radius, cat.time,
mt.object_ID, mt.label`). -/
structure CrossMatchRow where
  name : String
  ra : Rat
  dec : Rat
  error_radius : Rat
  time : Rat
  object_id : Nat
  label : String
  deriving Repr, DecidableEq

/-- Row of the per-catalog DataFrame `df_heasarc` built at lines 114-118,
keyed by `(object_id, label, band, time)` with value columns `flux`, `err`. -/
structure LightCurveRow where
  object_id : Nat
  label : String
  band : String
  time : Rat
  flux : Rat
  err : Rat
  deriving Repr, DecidableEq

/-- Modelled from the spec: `MultiIndexDFObject` lives in `data_structures.py`,
which is not part of the sources under verification; per the spec it is an
append-only multi-indexed collection of light-curve rows whose `append(batch)`
operation adds the batch's rows and never removes existing ones. -/
structure MultiIndexDFObject where
  rows : List LightCurveRow
  deriving Repr, DecidableEq

/-- Modelled from the spec: `append` grows the accumulator by the batch. -/
def MultiIndexDFObject.append (df : MultiIndexDFObject)
    (batch : List LightCurveRow) : MultiIndexDFObject :=
  ⟨df.rows ++ batch⟩

/-- One `run_sync` invocation of the fetch loop (line 105): the catalog name
and cutoff interpolated into the ADQL string at lines 97-103, together with
the table uploaded as `tap_upload.mytable`. -/
structure IssuedQuery where
  catalog : String
  maxErrorRadius : Rat
  upload : List TargetRow
  deriving Repr, DecidableEq, Inhabited

/-- Python exceptions that can escape `HEASARC_get_lightcurves`: an
`IndexError` from evaluating `max_error_radius[m]` past the end of the list
while building the query string, or a remote failure raised by `run_sync`. -/
inductive FetchError where
  | indexError (m : Nat)
  | queryError (m : Nat) (e : String)
  deriving Repr, DecidableEq

/-- Execution trace of one `HEASARC_get_lightcurves` call: the network calls
issued in order, the batches passed to `df_lc.append` in order, the final
contents of the local accumulator `df_lc`, and the outcome (`none` when the
function returns normally, `some e` when exception `e` propagates). -/
structure FetchTrace where
  queriesIssued : List IssuedQuery
  batches : List (List LightCurveRow)
  df_lc : MultiIndexDFObject
  outcome : Option FetchError
  deriving Repr, DecidableEq

/-- Lines 83-85: `upload_table = source_table['object_id', 'label']` followed
by the `ra`/`dec` column assignments from `source_table['coord']`. -/
def projectUpload (source_table : List SourceRow) : List TargetRow :=
  source_table.map fun r => ⟨r.object_id, r.label, r.coord_ra, r.coord_dec⟩

/-- Lines 114-118: `df_heasarc` built from `hresulttable`, with made-up
`flux = 0.1` and `err = 0.1`, `band` set to the current catalog name, and
`time`, `object_id`, `label` copied from the query result. -/
def batchRows (cat : String) (hresulttable : List CrossMatchRow) :
    List LightCurveRow :=
  hresulttable.map fun r => ⟨r.object_id, r.label, cat, r.time, 1/10, 1/10⟩

/-- The `for m in range(len(heasarc_cat))` loop at lines 94-120, instrumented
to record issued queries and appended batches.  `fuel` counts the remaining
iterations (`HEASARC_get_lightcurves` starts it at `heasarc_cat.length`, so
`m` stays in range for `cats` and `heasarc_cat[m]` never fails, exactly as in
Python); `radii[m]?` models `max_error_radius[m]`, which raises `IndexError`
when `m` is past the end of that list; a `svc` error models `run_sync`
raising, which aborts the loop with the exception propagating. -/
def fetchLoop (svc : IssuedQuery → Except String (List CrossMatchRow))
    (upload : List TargetRow) (cats : List String) (radii : List Rat) :
    Nat → Nat → List IssuedQuery → List (List LightCurveRow) →
    MultiIndexDFObject → FetchTrace
  | 0, _, issued, batches, df => ⟨issued, batches, df, none⟩
  | fuel + 1, m, issued, batches, df =>
    match radii[m]? with
    | none => ⟨issued, batches, df, some (FetchError.indexError m)⟩
    | some radius =>
      let q : IssuedQuery := ⟨cats[m]!, radius, upload⟩
      match svc q with
      | Except.error e => ⟨issued ++ [q], batches, df,
          some (FetchError.queryError m e)⟩
      | Except.ok hresult =>
        let batch := batchRows cats[m]! hresult
        fetchLoop svc upload cats radii fuel (m + 1) (issued ++ [q])
          (batches ++ [batch]) (df.append batch)

/-- Embedding of `HEASARC_get_lightcurves(source_table, heasarc_cat,
max_error_radius)`: builds `upload_table` once, creates a fresh empty
`MultiIndexDFObject`, then runs the per-catalog loop. -/
def HEASARC_get_lightcurves (svc : IssuedQuery → Except String (List CrossMatchRow))
    (source_table : List SourceRow) (heasarc_cat : List String)
    (max_error_radius : List Rat) : FetchTrace :=
  let upload_table := projectUpload source_table
  let df_lc : MultiIndexDFObject := ⟨[]⟩
  fetchLoop svc upload_table heasarc_cat max_error_radius
    heasarc_cat.length 0 [] [] df_lc

/-- One entry of a remote HEASARC catalog `cat`, with the columns the query at
lines 97-103 reads. -/
structure CatalogEntry where
  name : String
  ra : Rat
  dec : Rat
  error_radius : Rat
  time : Rat
  deriving Repr, DecidableEq

/-- Meaning of the WHERE clause of the ADQL string built at lines 97-103:
`cat.error_radius < {max_error_radius[m]} AND CONTAINS(POINT('ICRS', mt.ra,
mt.dec), CIRCLE('ICRS', cat.ra, cat.dec, cat.error_radius)) = 1`.  The
point-in-circle containment test is evaluated remotely with spherical
geometry, so it is abstracted as the Boolean parameter `containsTest`; the
strict `<` comparison on the error radius is the clause written by the code. -/
def hqueryWhere (containsTest : CatalogEntry → TargetRow → Bool)
    (maxErrorRadius : Rat) (c : CatalogEntry) (t : TargetRow) : Bool :=
  decide (c.error_radius < maxErrorRadius) && containsTest c t

/-- Meaning of the full spatial-join query at lines 97-103 as executed by a
compliant TAP service over catalog contents `catalogRows`: the join of the
catalog with the uploaded target table, filtered by `hqueryWhere`, projected
to the SELECT list. -/
def runCatalogQuery (containsTest : CatalogEntry → TargetRow → Bool)
    (catalogRows : List CatalogEntry) (q : IssuedQuery) :
    List CrossMatchRow :=
  catalogRows.flatMap fun c =>
    q.upload.filterMap fun t =>
      if hqueryWhere containsTest q.maxErrorRadius c t then
        some ⟨c.name, c.ra, c.dec, c.error_radius, c.time, t.object_id, t.label⟩
      else none

/-- Row of the result table of `make_hist_error_radii`: the SELECT list at
line 40 (`cat.name, cat.ra, cat.dec, cat.error_radius`). -/
structure ErrorRadiusRow where
  name : String
  ra : Rat
  dec : Rat
  error_radius : Rat
  deriving Repr, DecidableEq

/-- The query string built at lines 39-42: `SELECT TOP 5000 cat.name, cat.ra,
cat.dec, cat.error_radius FROM {missioncat} as cat`, with no WHERE clause. -/
structure HistQuery where
  top : Nat
  columns : List String
  catalog : String
  hasWhereClause : Bool
  deriving Repr, DecidableEq

/-- The `plt.hist` call at line 51: the plotted values, the bin count and the
fixed visual range. -/
structure HistSpec where
  values : List Rat
  bins : Nat
  rangeLo : Rat
  rangeHi : Rat
  deriving Repr, DecidableEq

/-- Execution trace of one `make_hist_error_radii` call: the query issued, the
histogram rendered as a side effect, and the table returned to the caller. -/
structure InspectorTrace where
  query : HistQuery
  hist : HistSpec
  returned : List ErrorRadiusRow
  deriving Repr, DecidableEq

/-- Embedding of `make_hist_error_radii(missioncat)` (lines 16-54): issues the
unfiltered TOP-5000 sample query, plots a 30-bin histogram of the
`error_radius` column over the fixed range [0, 10], and returns the full
result table unmodified.  `svc` is the remote service oracle mapping the
query to its result table. -/
def make_hist_error_radii (svc : HistQuery → List ErrorRadiusRow)
    (missioncat : String) : InspectorTrace :=
  let heasarcquery : HistQuery :=
    ⟨5000, ["name", "ra", "dec", "error_radius"], missioncat, false⟩
  let heasarcresulttable := svc heasarcquery
  { query := heasarcquery
    hist := ⟨heasarcresulttable.map (fun r => r.error_radius), 30, 0, 10⟩
    returned := heasarcresulttable }

/-- Cell of an astropy table column: the `source_table` columns hold opaque
identifiers, strings, floats, or SkyCoord values (a `coord` cell carries the
`ra`/`dec` degrees read via `.ra.deg` / `.dec.deg`). -/
inductive Cell where
  | nat (n : Nat)
  | str (s : String)
  | rat (q : Rat)
  | coord (ra dec : Rat)
  deriving Repr, DecidableEq

/-- An astropy table as an ordered association of column names to column
values. -/
abbrev AstroTable := List (String × List Cell)

/-- The `.ra.deg` accessor on a SkyCoord cell. -/
def coordRaDeg : Cell → Rat
  | Cell.coord ra _ => ra
  | _ => 0

/-- The `.dec.deg` accessor on a SkyCoord cell. -/
def coordDecDeg : Cell → Rat
  | Cell.coord _ dec => dec
  | _ => 0

/-- Multi-column selection `table['a', 'b']`: astropy returns a NEW table
holding copies of the named columns (not views into the original). -/
def selectCols (t : AstroTable) (names : List String) : AstroTable :=
  names.filterMap fun n =>
    (t.find? fun c => c.fst == n).map fun c => (n, c.snd)

/-- Column assignment `table['name'] = vals`: replaces the column if present,
otherwise adds it at the end. -/
def setCol (t : AstroTable) (name : String) (vals : List Cell) : AstroTable :=
  match t with
  | [] => [(name, vals)]
  | c :: rest =>
    if c.fst == name then (name, vals) :: rest else c :: setCol rest name vals

/-- Column read `table['name']`. -/
def getCol (t : AstroTable) (name : String) : List Cell :=
  ((t.find? fun c => c.fst == name).map fun c => c.snd).getD []

/-- Embedding of lines 83-85 at astropy-table level, tracking what happens to
the caller's `source_table` object: `upload_table = source_table['object_id',
'label']` copies the two columns into a new table, and the `ra`/`dec`
assignments act on that copy.  Returns the pair (the `source_table` object
after the three statements, the finished `upload_table`). -/
def prepUploadTable (source_table : AstroTable) : AstroTable × AstroTable :=
  let upload0 := selectCols source_table ["object_id", "label"]
  let upload1 := setCol upload0 "ra"
    ((getCol source_table "coord").map fun c => Cell.rat (coordRaDeg c))
  let upload2 := setCol upload1 "dec"
    ((getCol source_table "coord").map fun c => Cell.rat (coordDecDeg c))
  (source_table, upload2)

/-- Concrete two-object target table (`ids = [1, 2]`, `label = "A"`) used to
evaluate the theorems on concrete inputs. -/
def sampleSource : List SourceRow := [⟨1, "A", 10, 20⟩, ⟨2, "A", 30, 40⟩]

/-- Concrete cross-match hit for object 1 at time 100. -/
def crossRow1 : CrossMatchRow := ⟨"SRC1", 10, 20, 2, 100, 1, "A"⟩

/-- Concrete cross-match hit for object 1 at time 200. -/
def crossRow2 : CrossMatchRow := ⟨"SRC2", 10, 20, 2, 200, 1, "A"⟩

/-- Concrete remote-service oracle: the `CAT1` query succeeds with two rows,
any other catalog raises a remote failure. -/
def svcCAT1 : IssuedQuery → Except String (List CrossMatchRow) := fun q =>
  if q.catalog = "CAT1" then Except.ok [crossRow1, crossRow2]
  else Except.error "remote failure"

/-- Concrete remote-service oracle: the `CAT1` query succeeds with an empty
result set, the `CAT2` query succeeds with one row, anything else fails. -/
def svcEmptyFirst : IssuedQuery → Except String (List CrossMatchRow) := fun q =>
  if q.catalog = "CAT1" then Except.ok []
  else if q.catalog = "CAT2" then Except.ok [crossRow1]
  else Except.error "remote failure"

/-- Concrete light-curve row from another survey (band `ZTF`), standing for a
row a caller-side accumulator held before the HEASARC fetch. -/
def preRow : LightCurveRow := ⟨7, "B", "ZTF", 55, 2, 3⟩

/-- Concrete caller-side accumulator already holding `preRow`. -/
def accPre : MultiIndexDFObject := ⟨[preRow]⟩

/-- Unfolding lemma: one successful loop iteration issues the query for index
`m` and appends its batch. -/
theorem fetchLoop_step (svc : IssuedQuery → Except String (List CrossMatchRow))
    (upload : List TargetRow) (cats : List String) (radii : List Rat)
    (fuel m : Nat) (issued : List IssuedQuery)
    (batches : List (List LightCurveRow)) (df : MultiIndexDFObject)
    (radius : Rat) (hresult : List CrossMatchRow)
    (hr : radii[m]? = some radius)
    (hs : svc ⟨cats[m]!, radius, upload⟩ = Except.ok hresult) :
    fetchLoop svc upload cats radii (fuel + 1) m issued batches df =
      fetchLoop svc upload cats radii fuel (m + 1)
        (issued ++ [⟨cats[m]!, radius, upload⟩])
        (batches ++ [batchRows cats[m]! hresult])
        (df.append (batchRows cats[m]! hresult)) := by
  simp [fetchLoop, hr, hs]

/-- Unfolding lemma: with the fuel exhausted (loop index reached
`len(heasarc_cat)`) the loop returns normally. -/
theorem fetchLoop_done (svc : IssuedQuery → Except String (List CrossMatchRow))
    (upload : List TargetRow) (cats : List String) (radii : List Rat)
    (m : Nat) (issued : List IssuedQuery)
    (batches : List (List LightCurveRow)) (df : MultiIndexDFObject) :
    fetchLoop svc upload cats radii 0 m issued batches df =
      ⟨issued, batches, df, none⟩ := rfl

/-- Unfolding lemma: when `max_error_radius[m]` is out of range, building the
query string raises `IndexError` before any network call for this catalog. -/
theorem fetchLoop_indexErr (svc : IssuedQuery → Except String (List CrossMatchRow))
    (upload : List TargetRow) (cats : List String) (radii : List Rat)
    (fuel m : Nat) (issued : List IssuedQuery)
    (batches : List (List LightCurveRow)) (df : MultiIndexDFObject)
    (hm : radii.length ≤ m) :
    fetchLoop svc upload cats radii (fuel + 1) m issued batches df =
      ⟨issued, batches, df, some (FetchError.indexError m)⟩ := by
  have h : radii[m]? = none := by
    simp [List.getElem?_eq_none_iff]
    omega
  simp [fetchLoop, h]

/-- Unfolding lemma: when `run_sync` raises for index `m`, the query was
issued, nothing is appended, and the exception propagates. -/
theorem fetchLoop_queryErr (svc : IssuedQuery → Except String (List CrossMatchRow))
    (upload : List TargetRow) (cats : List String) (radii : List Rat)
    (fuel m : Nat) (issued : List IssuedQuery)
    (batches : List (List LightCurveRow)) (df : MultiIndexDFObject)
    (radius : Rat) (e : String)
    (hr : radii[m]? = some radius)
    (hs : svc ⟨cats[m]!, radius, upload⟩ = Except.error e) :
    fetchLoop svc upload cats radii (fuel + 1) m issued batches df =
      ⟨issued ++ [⟨cats[m]!, radius, upload⟩], batches, df,
       some (FetchError.queryError m e)⟩ := by
  simp [fetchLoop, hr, hs]

/-- Closed form for `k` consecutive successful iterations starting at index
`m0`: the loop advances to index `m0 + k`, issuing one query and appending
one batch per index. -/
theorem fetchLoop_okSteps (svc : IssuedQuery → Except String (List CrossMatchRow))
    (upload : List TargetRow) (cats : List String) (radii : List Rat)
    (R : Nat → List CrossMatchRow) (k : Nat) :
    ∀ (fuel m0 : Nat) (issued : List IssuedQuery)
      (batches : List (List LightCurveRow)) (df : MultiIndexDFObject),
    k ≤ fuel → m0 + k ≤ radii.length →
    (∀ m, m0 ≤ m → m < m0 + k →
       svc ⟨cats[m]!, radii[m]!, upload⟩ = Except.ok (R m)) →
    fetchLoop svc upload cats radii fuel m0 issued batches df =
      fetchLoop svc upload cats radii (fuel - k) (m0 + k)
        (issued ++ (List.range' m0 k).map fun m => ⟨cats[m]!, radii[m]!, upload⟩)
        (batches ++ (List.range' m0 k).map fun m => batchRows cats[m]! (R m))
        ⟨df.rows ++
          ((List.range' m0 k).map fun m => batchRows cats[m]! (R m)).flatten⟩ := by
  induction k with
  | zero => intro fuel m0 issued batches df _ _ _; simp
  | succ k ih =>
    intro fuel m0 issued batches df hk hlen hok
    obtain ⟨f, rfl⟩ : ∃ f, fuel = f + 1 := ⟨fuel - 1, by omega⟩
    have hm0 : m0 < radii.length := by omega
    have hr : radii[m0]? = some radii[m0]! := by
      rw [List.getElem?_eq_getElem hm0, getElem!_pos radii m0 hm0]
    have hs := hok m0 (le_refl m0) (by omega)
    rw [fetchLoop_step svc upload cats radii f m0 issued batches df _ _ hr hs]
    rw [ih f (m0 + 1) _ _ _ (by omega) (by omega)
      (fun m hm1 hm2 => hok m (by omega) (by omega))]
    have hms : m0 + (k + 1) = (m0 + 1) + k := by omega
    rw [List.range'_succ m0 k 1, hms, Nat.succ_sub_succ]
    simp [MultiIndexDFObject.append]

/-- Closed form of a fully successful `HEASARC_get_lightcurves` call with
matching list lengths: one query and one batch per catalog, in list order,
and the fresh accumulator holds exactly the concatenated batches. -/
theorem HEASARC_ok (svc : IssuedQuery → Except String (List CrossMatchRow))
    (st : List SourceRow) (cats : List String) (radii : List Rat)
    (R : Nat → List CrossMatchRow)
    (hlen : cats.length ≤ radii.length)
    (hok : ∀ m, m < cats.length →
      svc ⟨cats[m]!, radii[m]!, projectUpload st⟩ = Except.ok (R m)) :
    HEASARC_get_lightcurves svc st cats radii =
      ⟨(List.range cats.length).map fun m =>
         ⟨cats[m]!, radii[m]!, projectUpload st⟩,
       (List.range cats.length).map fun m => batchRows cats[m]! (R m),
       ⟨((List.range cats.length).map fun m => batchRows cats[m]! (R m)).flatten⟩,
       none⟩ := by
  unfold HEASARC_get_lightcurves
  rw [fetchLoop_okSteps svc (projectUpload st) cats radii R cats.length
    cats.length 0 [] [] ⟨[]⟩ (le_refl _) (by omega)
    (fun m hm1 hm2 => hok m (by omega))]
  rw [Nat.sub_self]
  rw [fetchLoop_done]
  simp [List.range_eq_range']

/-- Closed form of a call whose query for index `i` raises a remote failure
after indices below `i` succeeded: queries are issued up to and including
`i`, batches exist exactly for indices below `i`, and the exception
propagates. -/
theorem HEASARC_err (svc : IssuedQuery → Except String (List CrossMatchRow))
    (st : List SourceRow) (cats : List String) (radii : List Rat)
    (R : Nat → List CrossMatchRow) (i : Nat) (e : String)
    (hi : i < cats.length) (hir : i < radii.length)
    (hok : ∀ m, m < i →
      svc ⟨cats[m]!, radii[m]!, projectUpload st⟩ = Except.ok (R m))
    (herr : svc ⟨cats[i]!, radii[i]!, projectUpload st⟩ = Except.error e) :
    HEASARC_get_lightcurves svc st cats radii =
      ⟨(List.range (i + 1)).map fun m =>
         ⟨cats[m]!, radii[m]!, projectUpload st⟩,
       (List.range i).map fun m => batchRows cats[m]! (R m),
       ⟨((List.range i).map fun m => batchRows cats[m]! (R m)).flatten⟩,
       some (FetchError.queryError i e)⟩ := by
  unfold HEASARC_get_lightcurves
  rw [fetchLoop_okSteps svc (projectUpload st) cats radii R i
    cats.length 0 [] [] ⟨[]⟩ (by omega) (by omega)
    (fun m hm1 hm2 => hok m (by omega))]
  obtain ⟨f, hf⟩ : ∃ f, cats.length - i = f + 1 := ⟨cats.length - i - 1, by omega⟩
  rw [hf]
  have hri : radii[0 + i]? = some radii[0 + i]! := by
    rw [List.getElem?_eq_getElem (by omega : 0 + i < radii.length),
      getElem!_pos radii (0 + i) (by omega)]
  rw [fetchLoop_queryErr svc (projectUpload st) cats radii f (0 + i) _ _ _
    radii[0 + i]! e hri (by simpa using herr)]
  simp only [Nat.zero_add]
  rw [List.range_succ, ← List.range_eq_range']
  simp

/-- Closed form of a call with more catalogs than cutoffs, all issued queries
succeeding: every catalog with a cutoff is queried, then evaluating
`max_error_radius[m]` at `m = len(max_error_radius)` raises `IndexError`. -/
theorem HEASARC_indexErr (svc : IssuedQuery → Except String (List CrossMatchRow))
    (st : List SourceRow) (cats : List String) (radii : List Rat)
    (R : Nat → List CrossMatchRow)
    (hlt : radii.length < cats.length)
    (hok : ∀ m, m < radii.length →
      svc ⟨cats[m]!, radii[m]!, projectUpload st⟩ = Except.ok (R m)) :
    HEASARC_get_lightcurves svc st cats radii =
      ⟨(List.range radii.length).map fun m =>
         ⟨cats[m]!, radii[m]!, projectUpload st⟩,
       (List.range radii.length).map fun m => batchRows cats[m]! (R m),
       ⟨((List.range radii.length).map fun m =>
          batchRows cats[m]! (R m)).flatten⟩,
       some (FetchError.indexError radii.length)⟩ := by
  unfold HEASARC_get_lightcurves
  rw [fetchLoop_okSteps svc (projectUpload st) cats radii R radii.length
    cats.length 0 [] [] ⟨[]⟩ (by omega) (by omega)
    (fun m hm1 hm2 => hok m (by omega))]
  obtain ⟨f, hf⟩ : ∃ f, cats.length - radii.length = f + 1 :=
    ⟨cats.length - radii.length - 1, by omega⟩
  rw [hf]
  rw [fetchLoop_indexErr svc (projectUpload st) cats radii f _ _ _ _ (by omega)]
  simp [List.range_eq_range']

/-- Loop invariant: the accumulator's contents stay equal to the
concatenation of the batches appended so far, in every terminal state of the
loop (normal return, `IndexError`, or remote failure). -/
theorem fetchLoop_rows_eq_flatten
    (svc : IssuedQuery → Except String (List CrossMatchRow))
    (upload : List TargetRow) (cats : List String) (radii : List Rat)
    (fuel : Nat) :
    ∀ (m : Nat) (issued : List IssuedQuery)
      (batches : List (List LightCurveRow)) (df : MultiIndexDFObject),
    df.rows = batches.flatten →
    (fetchLoop svc upload cats radii fuel m issued batches df).df_lc.rows =
      (fetchLoop svc upload cats radii fuel m issued batches df).batches.flatten := by
  induction fuel with
  | zero => intro m issued batches df h; simpa [fetchLoop] using h
  | succ fuel ih =>
    intro m issued batches df h
    rcases hr : radii[m]? with _ | radius
    · simpa [fetchLoop, hr] using h
    · rcases hs : svc ⟨cats[m]!, radius, upload⟩ with e | hresult
      · simpa [fetchLoop, hr, hs] using h
      · rw [fetchLoop_step svc upload cats radii fuel m issued batches df
          radius hresult hr hs]
        exact ih (m + 1) _ _ _ (by simp [MultiIndexDFObject.append, h])

/-- Loop invariant: every query issued by the loop carries the `upload` table
the loop was given. -/
theorem fetchLoop_upload_inv
    (svc : IssuedQuery → Except String (List CrossMatchRow))
    (upload : List TargetRow) (cats : List String) (radii : List Rat)
    (fuel : Nat) :
    ∀ (m : Nat) (issued : List IssuedQuery)
      (batches : List (List LightCurveRow)) (df : MultiIndexDFObject),
    (∀ q ∈ issued, q.upload = upload) →
    ∀ q ∈ (fetchLoop svc upload cats radii fuel m issued batches df).queriesIssued,
      q.upload = upload := by
  induction fuel with
  | zero => intro m issued batches df h; simpa [fetchLoop] using h
  | succ fuel ih =>
    intro m issued batches df h
    rcases hr : radii[m]? with _ | radius
    · simpa [fetchLoop, hr] using h
    · rcases hs : svc ⟨cats[m]!, radius, upload⟩ with e | hresult
      · intro q hq
        rw [fetchLoop_queryErr svc upload cats radii fuel m issued batches df
          radius e hr hs] at hq
        simp at hq
        rcases hq with hq | hq
        · exact h q hq
        · rw [hq]
      · rw [fetchLoop_step svc upload cats radii fuel m issued batches df
          radius hresult hr hs]
        refine ih (m + 1) _ _ _ ?_
        intro q hq
        simp at hq
        rcases hq with hq | hq
        · exact h q hq
        · rw [hq]

/-- Reading back a column just assigned: `t['name'] = vals` followed by
`t['name']` yields `vals`. -/
theorem getCol_setCol (t : AstroTable) (name : String) (vals : List Cell) :
    getCol (setCol t name vals) name = vals := by
  induction t with
  | nil => simp [setCol, getCol, List.find?]
  | cons c rest ih =>
    by_cases h : c.fst == name
    · simp [setCol, h, getCol, List.find?]
    · simp only [setCol, h, if_false]
      simpa [getCol, List.find?, h] using ih

/-- Assigning one column leaves every other column unchanged. -/
theorem getCol_setCol_ne (t : AstroTable) (name other : String)
    (vals : List Cell) (h : other ≠ name) :
    getCol (setCol t name vals) other = getCol t other := by
  induction t with
  | nil =>
    simp [setCol, getCol, List.find?, show (name == other) = false by
      simpa using fun he => h he.symm]
  | cons c rest ih =>
    by_cases hc : c.fst == name
    · simp [setCol, hc, getCol, List.find?,
        show (name == other) = false by simpa using fun he => h he.symm,
        show (c.fst == other) = false by
          simp at hc
          simpa using fun he => h (he.symm.trans hc)]
    · simp only [setCol, hc, if_false]
      by_cases ho : c.fst == other
      · simp [getCol, List.find?, ho]
      · simpa [getCol, List.find?, ho] using ih

/-- Claim C1 counterexample: the code does not grow a caller-owned
accumulator.  `HEASARC_get_lightcurves` takes no accumulator argument; line
88 constructs a fresh `MultiIndexDFObject()`, so a row held by a caller-side
accumulator before the call (here `preRow`, from another source) is absent
from the returned accumulator even though the call completes normally and
returns rows of its own. -/
theorem heasarc_fresh_accumulator_drops_prior_rows :
    preRow ∈ accPre.rows ∧
    (HEASARC_get_lightcurves svcCAT1 sampleSource ["CAT1"] [5]).outcome = none ∧
    (HEASARC_get_lightcurves svcCAT1 sampleSource ["CAT1"] [5]).df_lc.rows ≠ [] ∧
    preRow ∉ (HEASARC_get_lightcurves svcCAT1 sampleSource ["CAT1"] [5]).df_lc.rows := by
  decide

/-- Claim C1 (amended): `HEASARC_get_lightcurves` constructs a fresh, empty
accumulator internally and returns it; in every terminal state the returned
accumulator contains exactly the concatenation of the batches appended during
this call — it never receives, and therefore never grows or discards, a
caller-owned accumulator. -/
theorem heasarc_accumulator_exactly_own_batches
    (svc : IssuedQuery → Except String (List CrossMatchRow))
    (st : List SourceRow) (cats : List String) (radii : List Rat) :
    (HEASARC_get_lightcurves svc st cats radii).df_lc.rows =
      (HEASARC_get_lightcurves svc st cats radii).batches.flatten := by
  unfold HEASARC_get_lightcurves
  exact fetchLoop_rows_eq_flatten svc (projectUpload st) cats radii
    cats.length 0 [] [] ⟨[]⟩ rfl

/-- Claim C2 counterexample: mismatched parallel-list lengths do NOT fail
fast.  With two catalogs and one cutoff, the `CAT1` query is issued (a
network call happens) before `max_error_radius[1]` raises `IndexError`; with
one catalog and two cutoffs, no failure is raised at all and the call returns
normally. -/
theorem mismatched_lengths_not_failfast :
    (["CAT1", "CAT2"] : List String).length ≠ ([5] : List Rat).length ∧
    (HEASARC_get_lightcurves svcCAT1 sampleSource ["CAT1", "CAT2"] [5]).queriesIssued.length = 1 ∧
    (HEASARC_get_lightcurves svcCAT1 sampleSource ["CAT1", "CAT2"] [5]).outcome =
      some (FetchError.indexError 1) ∧
    (["CAT1"] : List String).length ≠ ([5, 1] : List Rat).length ∧
    (HEASARC_get_lightcurves svcCAT1 sampleSource ["CAT1"] [5, 1]).outcome = none := by
  decide

/-- Claim C2 (amended): no length validation is performed.  If the catalog
list is longer than the cutoff list, one query per available cutoff is issued
first (network calls do happen) and only then does evaluating
`max_error_radius[m]` at `m = len(max_error_radius)` raise an index error; if
the catalog list is shorter or equal, the extra cutoffs are silently ignored
and the call completes without any input-contract failure. -/
theorem heasarc_no_length_validation
    (svc : IssuedQuery → Except String (List CrossMatchRow))
    (st : List SourceRow) (cats : List String) (radii : List Rat)
    (R : Nat → List CrossMatchRow)
    (hok : ∀ m, m < min radii.length cats.length →
      svc ⟨cats[m]!, radii[m]!, projectUpload st⟩ = Except.ok (R m)) :
    (radii.length < cats.length →
      (HEASARC_get_lightcurves svc st cats radii).queriesIssued.length =
        radii.length ∧
      (HEASARC_get_lightcurves svc st cats radii).outcome =
        some (FetchError.indexError radii.length)) ∧
    (cats.length ≤ radii.length →
      (HEASARC_get_lightcurves svc st cats radii).outcome = none) := by
  constructor
  · intro hlt
    rw [HEASARC_indexErr svc st cats radii R hlt (fun m hm => hok m (by omega))]
    simp
  · intro hle
    rw [HEASARC_ok svc st cats radii R hle (fun m hm => hok m (by omega))]

/-- Witness for C2 (amended): with catalogs `["CAT1", "CAT2"]` and the single
cutoff `[5]`, exactly one query is issued and the call ends with
`IndexError` at index 1. -/
theorem heasarc_no_length_validation_witness :
    (HEASARC_get_lightcurves svcCAT1 sampleSource ["CAT1", "CAT2"] [5]).queriesIssued.length = 1 ∧
    (HEASARC_get_lightcurves svcCAT1 sampleSource ["CAT1", "CAT2"] [5]).outcome =
      some (FetchError.indexError 1) :=
  (heasarc_no_length_validation svcCAT1 sampleSource ["CAT1", "CAT2"] [5]
    (fun _ => [crossRow1, crossRow2])
    (fun m hm => by
      have hm0 : m = 0 := by
        simp only [List.length_cons, List.length_nil] at hm
        omega
      subst hm0; rfl)).1 (by decide)

/-- Claim C3: if the query for catalog `i` raises a remote failure after all
earlier catalogs succeeded, the failure propagates to the caller, catalogs
after `i` are never queried (exactly `i + 1` queries were issued), and the
rows already appended for the catalogs before `i` remain in the accumulator
(no rollback). -/
theorem heasarc_query_failure_aborts
    (svc : IssuedQuery → Except String (List CrossMatchRow))
    (st : List SourceRow) (cats : List String) (radii : List Rat)
    (R : Nat → List CrossMatchRow) (i : Nat) (e : String)
    (hi : i < cats.length) (hir : i < radii.length)
    (hok : ∀ m, m < i →
      svc ⟨cats[m]!, radii[m]!, projectUpload st⟩ = Except.ok (R m))
    (herr : svc ⟨cats[i]!, radii[i]!, projectUpload st⟩ = Except.error e) :
    (HEASARC_get_lightcurves svc st cats radii).outcome =
      some (FetchError.queryError i e) ∧
    (HEASARC_get_lightcurves svc st cats radii).queriesIssued.length = i + 1 ∧
    (HEASARC_get_lightcurves svc st cats radii).df_lc.rows =
      ((List.range i).map fun m => batchRows cats[m]! (R m)).flatten := by
  rw [HEASARC_err svc st cats radii R i e hi hir hok herr]
  simp

/-- Witness for C3: catalogs `["CAT1", "CAT2"]` with cutoffs `[5, 1]` under
`svcCAT1` (CAT1 succeeds with 2 rows, CAT2 raises): the failure for index 1
propagates, both queries were issued and none beyond, and the accumulator
holds exactly the two CAT1-derived rows. -/
theorem heasarc_query_failure_aborts_witness :
    (HEASARC_get_lightcurves svcCAT1 sampleSource ["CAT1", "CAT2"] [5, 1]).outcome =
      some (FetchError.queryError 1 "remote failure") ∧
    (HEASARC_get_lightcurves svcCAT1 sampleSource ["CAT1", "CAT2"] [5, 1]).queriesIssued.length = 2 ∧
    (HEASARC_get_lightcurves svcCAT1 sampleSource ["CAT1", "CAT2"] [5, 1]).df_lc.rows =
      [⟨1, "A", "CAT1", 100, 1/10, 1/10⟩, ⟨1, "A", "CAT1", 200, 1/10, 1/10⟩] := by
  have h := heasarc_query_failure_aborts svcCAT1 sampleSource ["CAT1", "CAT2"]
    [5, 1] (fun _ => [crossRow1, crossRow2]) 1 "remote failure"
    (by decide) (by decide)
    (fun m hm => by
      have hm0 : m = 0 := by omega
      subst hm0; rfl)
    (by rfl)
  exact ⟨h.1, h.2.1, h.2.2.trans (by rfl)⟩

/-- Claim C4: for every non-empty catalog list with a matching-length cutoff
list, when every catalog query succeeds, the fetch appends exactly one batch
per catalog, and every row of the batch for catalog `i` has `band` equal to
`heasarc_cat[i]`, `flux` exactly `0.1` and `err` exactly `0.1`. -/
theorem heasarc_one_batch_per_catalog
    (svc : IssuedQuery → Except String (List CrossMatchRow))
    (st : List SourceRow) (cats : List String) (radii : List Rat)
    (R : Nat → List CrossMatchRow)
    (_hne : cats ≠ [])
    (hlen : radii.length = cats.length)
    (hok : ∀ m, m < cats.length →
      svc ⟨cats[m]!, radii[m]!, projectUpload st⟩ = Except.ok (R m)) :
    (HEASARC_get_lightcurves svc st cats radii).batches.length = cats.length ∧
    ∀ i, i < cats.length →
      ∀ row ∈ (HEASARC_get_lightcurves svc st cats radii).batches[i]!,
        row.band = cats[i]! ∧ row.flux = 1 / 10 ∧ row.err = 1 / 10 := by
  rw [HEASARC_ok svc st cats radii R (le_of_eq hlen.symm) hok]
  refine ⟨by simp, ?_⟩
  intro i hi row hrow
  have hb : ((List.range cats.length).map
      fun m => batchRows cats[m]! (R m))[i]! = batchRows cats[i]! (R i) := by
    rw [getElem!_pos _ i (by simpa using hi)]
    simp
  rw [hb] at hrow
  simp only [batchRows, List.mem_map] at hrow
  obtain ⟨r, _, rfl⟩ := hrow
  exact ⟨rfl, rfl, rfl⟩

/-- Witness for C4: the single-catalog call under `svcCAT1` appends exactly
one batch, and the first row of that batch has band `CAT1` and the sentinel
flux and error values. -/
theorem heasarc_one_batch_per_catalog_witness :
    (HEASARC_get_lightcurves svcCAT1 sampleSource ["CAT1"] [5]).batches.length = 1 ∧
    ((⟨1, "A", "CAT1", 100, 1 / 10, 1 / 10⟩ : LightCurveRow).band = "CAT1" ∧
     (⟨1, "A", "CAT1", 100, 1 / 10, 1 / 10⟩ : LightCurveRow).flux = 1 / 10 ∧
     (⟨1, "A", "CAT1", 100, 1 / 10, 1 / 10⟩ : LightCurveRow).err = 1 / 10) :=
  ⟨(heasarc_one_batch_per_catalog svcCAT1 sampleSource ["CAT1"] [5]
      (fun _ => [crossRow1, crossRow2]) (by decide) (by decide)
      (fun m hm => by
        have hm0 : m = 0 := by
          simp only [List.length_cons, List.length_nil] at hm
          omega
        subst hm0; rfl)).1,
   (heasarc_one_batch_per_catalog svcCAT1 sampleSource ["CAT1"] [5]
      (fun _ => [crossRow1, crossRow2]) (by decide) (by decide)
      (fun m hm => by
        have hm0 : m = 0 := by
          simp only [List.length_cons, List.length_nil] at hm
          omega
        subst hm0; rfl)).2 0 (by decide)
     ⟨1, "A", "CAT1", 100, 1 / 10, 1 / 10⟩ (by
       have hb : (HEASARC_get_lightcurves svcCAT1 sampleSource ["CAT1"] [5]).batches[0]! =
           [⟨1, "A", "CAT1", 100, 1 / 10, 1 / 10⟩,
            ⟨1, "A", "CAT1", 200, 1 / 10, 1 / 10⟩] := rfl
       rw [hb]
       exact List.mem_cons_self _ _)⟩

/-- Claim C5: the WHERE clause of the spatial-join query uses a strict
inequality on the error radius, so a catalog entry whose `error_radius`
exactly equals the cutoff interpolated into the query is excluded from the
result set, whatever the containment test decides. -/
theorem error_radius_boundary_excluded
    (containsTest : CatalogEntry → TargetRow → Bool)
    (q : IssuedQuery) (c : CatalogEntry)
    (h : c.error_radius = q.maxErrorRadius) :
    runCatalogQuery containsTest [c] q = [] := by
  simp only [runCatalogQuery, List.flatMap_cons, List.flatMap_nil,
    List.append_nil]
  rw [List.filterMap_eq_nil_iff]
  intro t _
  simp [hqueryWhere, h]

/-- Witness for C5: a compliant service evaluating the query with cutoff 5
over a catalog whose one entry has `error_radius = 5` returns no rows, even
with a containment test that always succeeds — while the same entry with
`error_radius = 4` does match. -/
theorem error_radius_boundary_excluded_witness :
    runCatalogQuery (fun _ _ => true) [⟨"SRC1", 10, 20, 5, 100⟩]
      ⟨"CAT1", 5, projectUpload sampleSource⟩ = [] ∧
    runCatalogQuery (fun _ _ => true) [⟨"SRC1", 10, 20, 4, 100⟩]
      ⟨"CAT1", 5, projectUpload sampleSource⟩ ≠ [] :=
  ⟨error_radius_boundary_excluded (fun _ _ => true)
     ⟨"CAT1", 5, projectUpload sampleSource⟩ ⟨"SRC1", 10, 20, 5, 100⟩ rfl,
   by decide⟩

/-- Claim C6: a catalog whose query returns an empty result set contributes
an empty batch (zero appended rows), is not treated as an error, and the
remaining catalogs are still processed (every catalog in the list is
queried and the call returns normally). -/
theorem empty_result_zero_rows_continues
    (svc : IssuedQuery → Except String (List CrossMatchRow))
    (st : List SourceRow) (cats : List String) (radii : List Rat)
    (R : Nat → List CrossMatchRow) (i : Nat)
    (hlen : radii.length = cats.length)
    (hok : ∀ m, m < cats.length →
      svc ⟨cats[m]!, radii[m]!, projectUpload st⟩ = Except.ok (R m))
    (hi : i < cats.length) (hempty : R i = []) :
    (HEASARC_get_lightcurves svc st cats radii).batches[i]! = [] ∧
    (HEASARC_get_lightcurves svc st cats radii).outcome = none ∧
    (HEASARC_get_lightcurves svc st cats radii).queriesIssued.length =
      cats.length := by
  rw [HEASARC_ok svc st cats radii R (le_of_eq hlen.symm) hok]
  refine ⟨?_, rfl, by simp⟩
  rw [getElem!_pos _ i (by simpa using hi)]
  simp [hempty, batchRows]

/-- Witness for C6: under `svcEmptyFirst` the CAT1 query returns zero rows;
the batch for index 0 is empty, the call still returns normally and both
catalogs were queried. -/
theorem empty_result_zero_rows_continues_witness :
    (HEASARC_get_lightcurves svcEmptyFirst sampleSource ["CAT1", "CAT2"] [5, 1]).batches[0]! = [] ∧
    (HEASARC_get_lightcurves svcEmptyFirst sampleSource ["CAT1", "CAT2"] [5, 1]).outcome = none ∧
    (HEASARC_get_lightcurves svcEmptyFirst sampleSource ["CAT1", "CAT2"] [5, 1]).queriesIssued.length = 2 :=
  empty_result_zero_rows_continues svcEmptyFirst sampleSource ["CAT1", "CAT2"]
    [5, 1] (fun m => if m = 0 then [] else [crossRow1]) 0 (by decide)
    (fun m hm => by
      have hm2 : m < 2 := by
        simp only [List.length_cons, List.length_nil] at hm
        omega
      interval_cases m <;> rfl)
    (by decide) (by rfl)

/-- Claim C7: for every catalog name, `make_hist_error_radii` issues the
unfiltered `SELECT TOP 5000 name, ra, dec, error_radius` query against that
catalog, returns the service's result table to the caller unmodified, and
plots a 30-bin histogram of the `error_radius` column over the fixed range
[0, 10]; since the returned table is the untouched query result, values
outside the plotted range remain in the returned data. -/
theorem make_hist_returns_full_table (svc : HistQuery → List ErrorRadiusRow)
    (missioncat : String) :
    (make_hist_error_radii svc missioncat).query =
      ⟨5000, ["name", "ra", "dec", "error_radius"], missioncat, false⟩ ∧
    (make_hist_error_radii svc missioncat).returned =
      svc ⟨5000, ["name", "ra", "dec", "error_radius"], missioncat, false⟩ ∧
    (make_hist_error_radii svc missioncat).hist =
      ⟨((make_hist_error_radii svc missioncat).returned).map
         (fun r => r.error_radius), 30, 0, 10⟩ :=
  ⟨rfl, rfl, rfl⟩

/-- Claim C8: the projection of the target table is computed before the
per-catalog loop and the identical projected table is the upload of every
query issued, on every iteration — the uploaded right-hand side of the
spatial join is invariant across iterations and equal to
`projectUpload source_table`. -/
theorem heasarc_upload_invariant
    (svc : IssuedQuery → Except String (List CrossMatchRow))
    (st : List SourceRow) (cats : List String) (radii : List Rat) :
    ∀ q ∈ (HEASARC_get_lightcurves svc st cats radii).queriesIssued,
      q.upload = projectUpload st := by
  unfold HEASARC_get_lightcurves
  exact fetchLoop_upload_inv svc (projectUpload st) cats radii
    cats.length 0 [] [] ⟨[]⟩ (by simp)

/-- Witness for C8: in the two-catalog run under `svcEmptyFirst`, the upload
of the first issued query is exactly the projected sample table. -/
theorem heasarc_upload_invariant_witness :
    ((HEASARC_get_lightcurves svcEmptyFirst sampleSource ["CAT1", "CAT2"]
        [5, 1]).queriesIssued.head!).upload = projectUpload sampleSource :=
  heasarc_upload_invariant svcEmptyFirst sampleSource ["CAT1", "CAT2"] [5, 1]
    _ (by
      have hq : (HEASARC_get_lightcurves svcEmptyFirst sampleSource
          ["CAT1", "CAT2"] [5, 1]).queriesIssued =
          [⟨"CAT1", 5, projectUpload sampleSource⟩,
           ⟨"CAT2", 1, projectUpload sampleSource⟩] := rfl
      rw [hq]
      exact List.mem_cons_self _ _)

/-- Claim C9: for an empty catalog list and empty cutoff list, the fetch
issues no query, appends no batch, returns normally, and the returned
accumulator contains no rows from this call. -/
theorem heasarc_empty_catalog_list
    (svc : IssuedQuery → Except String (List CrossMatchRow))
    (st : List SourceRow) :
    HEASARC_get_lightcurves svc st [] [] = ⟨[], [], ⟨[]⟩, none⟩ := rfl

/-- Claim C10: the fetch never modifies the caller's `source_table`: the
multi-column selection `source_table['object_id', 'label']` copies the
selected columns into a new table (astropy copy semantics for multi-column
selection), so the `ra`/`dec` assignments land on the projected copy and the
`source_table` object is identical before and after, while the upload copy
gains the two float columns extracted from `coord`. -/
theorem source_table_unmodified (st : AstroTable) :
    (prepUploadTable st).fst = st ∧
    getCol (prepUploadTable st).snd "ra" =
      (getCol st "coord").map (fun c => Cell.rat (coordRaDeg c)) ∧
    getCol (prepUploadTable st).snd "dec" =
      (getCol st "coord").map (fun c => Cell.rat (coordDecDeg c)) := by
  refine ⟨rfl, ?_, ?_⟩
  · simp only [prepUploadTable]
    rw [getCol_setCol_ne _ "dec" "ra" _ (by decide), getCol_setCol]
  · simp only [prepUploadTable]
    rw [getCol_setCol]
